import Mathlib

/-!
Verification of the plasma Te-prediction front end
(`src/plasma_predictor/frontend/streamlit_app.py`).

The script has three parts, each embedded below as a pure function:
  * `load_wavelengths` — reads the header row of a whitespace-delimited
    file and produces 11 display labels (or a fallback);
  * `get_available_models` — one GET to `/models`, mapped to a list of
    model names with the sentinel "latest" prepended;
  * the predict-button handler — one POST to `/predict`, and the
    rendering of its outcome.

The outside world (filesystem, HTTP) is made explicit as input data
(`FileContent`, `HttpOutcome`); Python exceptions become an explicit
`Exc` value; every streamlit rendering call becomes a `Msg` in the
returned message list.
-/

/-- JSON values, as decoded by `response.json()`. Numbers are modelled as
rationals (exact values of the decimal literals on the wire). -/
inductive Json where
  | null : Json
  | bool (b : Bool) : Json
  | num (q : ℚ) : Json
  | str (s : String) : Json
  | arr (elems : List Json) : Json
  | obj (fields : List (String × Json)) : Json

/-- Python exceptions that the script's flow can surface, split by the
classes its `except` clauses distinguish: `requestExc` stands for
`requests.exceptions.RequestException` and its subclasses (`HTTPError`
from `raise_for_status`, connection errors, and — in requests ≥ 2.27 —
`JSONDecodeError` from `response.json()`); the rest are ordinary
built-in exceptions. -/
inductive Exc where
  | requestExc (msg : String)
  | keyError (key : String)
  | typeError (msg : String)
  | valueError (msg : String)
deriving DecidableEq

/-- A streamlit rendering call: `st.info`, `st.success`, `st.caption`,
`st.warning`, `st.error`. -/
inductive Msg where
  | info (s : String) : Msg
  | success (s : String) : Msg
  | caption (s : String) : Msg
  | warning (s : String) : Msg
  | error (s : String) : Msg
deriving DecidableEq

/-- A wavelength display label: either a parsed float or a raw string,
which is exactly the two shapes a value in the `wavelengths` list of
`load_wavelengths` can have. -/
inductive Label where
  | num (q : ℚ) : Label
  | str (s : String) : Label
deriving DecidableEq

/-- What the filesystem holds at the label-file path: the file is absent
(`FileNotFoundError`), unreadable or unparseable for some other reason
(any other exception, carrying its message), or present with the given
lines of text. -/
inductive FileContent where
  | absent : FileContent
  | ioError (msg : String) : FileContent
  | content (fileLines : List String) : FileContent

/-- Outcome of one HTTP request made with `requests`: either the request
call itself raised (no response object is ever bound), or a response
arrived with a status code and a body (`none` when the body is not
valid JSON, i.e. `response.json()` raises). -/
inductive HttpOutcome where
  | netErr (msg : String) : HttpOutcome
  | resp (status : ℕ) (body : Option Json) : HttpOutcome

/-! ## Python `float()` on a token, and pandas per-column inference

String functions from the Lean library (`String.split`, `String.splitOn`)
are defined by well-founded recursion and do not reduce in the kernel, so
the character-level work below is done structurally over `List Char`. -/

/-- Split a character list on a separator character (semantics of
`str.split(sep)` on the token's characters). -/
def splitOnCharAux (sep : Char) : List Char → List Char → List (List Char)
  | [], acc => [acc.reverse]
  | c :: cs, acc =>
    if c = sep then acc.reverse :: splitOnCharAux sep cs []
    else splitOnCharAux sep cs (c :: acc)

def splitOnChar (sep : Char) (cs : List Char) : List (List Char) :=
  splitOnCharAux sep cs []

/-- Strip one leading sign, returning whether it was a minus. -/
def splitSign : List Char → Bool × List Char
  | '-' :: cs => (true, cs)
  | '+' :: cs => (false, cs)
  | cs => (false, cs)

/-- Value of an all-digit character list; `none` when empty or when any
character is not an ASCII digit. -/
def digitsValAux : List Char → ℕ → Option ℕ
  | [], acc => some acc
  | c :: cs, acc =>
    if c.isDigit then digitsValAux cs (acc * 10 + (c.toNat - 48)) else none

def digitsVal? : List Char → Option ℕ
  | [] => none
  | cs => digitsValAux cs 0

/-- Unsigned decimal mantissa: digits, optionally with one decimal point,
at least one digit overall ("1", "1.5", "1.", ".5"). Returned as a pair
(numerator, number of fractional digits): the value is `n / 10 ^ k`. -/
def parseMantissa? (cs : List Char) : Option (ℕ × ℕ) :=
  match splitOnChar '.' cs with
  | [i] => (digitsVal? i).map (fun n => (n, 0))
  | [i, f] =>
    if i.isEmpty && f.isEmpty then none
    else if i.isEmpty then (digitsVal? f).map (fun n => (n, f.length))
    else if f.isEmpty then (digitsVal? i).map (fun n => (n, 0))
    else
      match digitsVal? i, digitsVal? f with
      | some n, some fr => some (n * 10 ^ f.length + fr, f.length)
      | _, _ => none
  | _ => none

/-- The rational `±n / 10^k`: the exact value of a signed decimal with
numerator `n` and `k` fractional digits. -/
def decOfParts (neg : Bool) (n : ℕ) (k : ℕ) : ℚ :=
  Rat.divInt (if neg then -(Int.ofNat n) else Int.ofNat n) (Int.ofNat (10 ^ k))

/-- Python `float(token)` on a whitespace-free token, as an exact
rational: optional sign, decimal mantissa, optional `e`/`E` exponent
with optional sign. The special literals `inf`/`nan` and digit-group
underscores, which Python also accepts, are outside the scope of this
model (no header token in the claims uses them). `none` means
`float()` raises `ValueError`. -/
def pyFloat? (s : String) : Option ℚ :=
  let p := splitSign s.data
  match splitOnChar 'e' (p.2.map Char.toLower) with
  | [mant] => (parseMantissa? mant).map (fun d => decOfParts p.1 d.1 d.2)
  | [mant, ex] =>
    match parseMantissa? mant, splitSign ex with
    | some d, (eneg, edig) =>
      match digitsVal? edig with
      | some ev =>
        if eneg then some (decOfParts p.1 d.1 (d.2 + ev))
        else some (decOfParts p.1 (d.1 * 10 ^ ev) d.2)
      | none => none
    | none, _ => none
  | _ => none

/-- pandas `read_csv(..., delim_whitespace=True, header=None, nrows=1)`
infers each column's dtype from its single value: a numeric token is
materialised as a float, any other token is kept as the raw string, so
`df.iloc[0, 1:].values` is a per-token mix of floats and strings.
The numeric parser is taken to coincide with Python `float()`
(bool/NaN/inf literals, which pandas treats specially, are outside the
scope of this model). -/
def inferLabel (t : String) : Label :=
  match pyFloat? t with
  | some q => Label.num q
  | none => Label.str t

/-- Python `float(wl)` applied to one value of the pandas row: a float passes
through, a string goes through `float()`. -/
def pyFloatOfLabel? : Label → Option ℚ
  | .num q => some q
  | .str s => pyFloat? s

/-- Semantics of the comprehension `[float(wl) for wl in wavelengths_str]`:
left to right, stopping at the first `ValueError`. -/
def traverseFloat : List Label → Option (List ℚ)
  | [] => some []
  | l :: ls =>
    match pyFloatOfLabel? l with
    | none => none
    | some q =>
      match traverseFloat ls with
      | none => none
      | some qs => some (q :: qs)

/-- The try/except around the comprehension: all values convert — use the
floats; any `ValueError` — keep `list(wavelengths_str)` as is. -/
def convertRow (ws : List Label) : List Label :=
  match traverseFloat ws with
  | some qs => qs.map Label.num
  | none => ws

/-- All tokens of a row parse as Python floats (the values, in order),
`none` as soon as one does not: the "every token is numeric" side
condition of the header-row claims. -/
def parseAll? : List String → Option (List ℚ)
  | [] => some []
  | t :: ts =>
    match pyFloat? t with
    | none => none
    | some q =>
      match parseAll? ts with
      | none => none
      | some qs => some (q :: qs)

/-! ## The label loader -/

/-- Whitespace tokenisation of one line, as `delim_whitespace=True` does:
maximal runs of non-whitespace characters. -/
def tokenizeAux : List Char → List Char → List (List Char)
  | [], acc => if acc.isEmpty then [] else [acc.reverse]
  | c :: cs, acc =>
    if c.isWhitespace then
      if acc.isEmpty then tokenizeAux cs [] else acc.reverse :: tokenizeAux cs []
    else tokenizeAux cs (c :: acc)

def tokenize (s : String) : List String :=
  (tokenizeAux s.data []).map (fun cs => String.mk cs)

/-- The row `read_csv(..., header=None, nrows=1)` yields: the tokens of
the first non-blank line (`skip_blank_lines=True` is the default);
`none` when every line is blank, in which case pandas raises
`EmptyDataError`. -/
def firstRow (ls : List String) : Option (List String) :=
  (ls.map tokenize).find? (fun t => !t.isEmpty)

def notFoundWarn (filename : String) : String :=
  "\x27" ++ filename ++ "\x27 파일 찾기 실패. 기본 레이블 사용."

def loadErrWarn (e : String) : String :=
  "파장 로딩 오류: " ++ e ++ ". 기본 레이블 사용."

/-- Message of pandas `EmptyDataError`. -/
def emptyDataMsg : String := "No columns to parse from file"

def lenErrMsg : String := "파장 데이터 로딩 오류: 11개 파장이 아닙니다."

/-- The fallback labels of the two `except` branches:
`[f"파장 {i+1}" for i in range(11)]` ("파장" is Korean for
"wavelength"). -/
def defaultLabels : List Label :=
  (List.range 11).map (fun i => Label.str ("파장 " ++ toString (i + 1)))

/-- Embedding of `load_wavelengths(filename)`: parse the header row, drop the first
column, float-convert with raw fallback, validate the count of 11;
`FileNotFoundError` and every other exception degrade to the generic
placeholder labels with a warning. Returns the Python return value
(`none` models `return None`) together with the streamlit messages
rendered on the way. -/
def load_wavelengths (filename : String) (f : FileContent) :
    Option (List Label) × List Msg :=
  match f with
  | .absent => (some defaultLabels, [Msg.warning (notFoundWarn filename)])
  | .ioError e => (some defaultLabels, [Msg.warning (loadErrWarn e)])
  | .content ls =>
    match firstRow ls with
    | none => (some defaultLabels, [Msg.warning (loadErrWarn emptyDataMsg)])
    | some toks =>
      let wavelengths := convertRow ((toks.drop 1).map inferLabel)
      if wavelengths.length = 11 then (some wavelengths, [])
      else (none, [Msg.error lenErrMsg])

/-- Python truthiness of the loader result at `if wavelength_labels:`. -/
def pyTruthy : Option (List Label) → Bool
  | none => false
  | some ls => !ls.isEmpty

def blockedMsg : String := "파장 정보를 로드할 수 없어 입력을 진행할 수 없습니다."

/-- The module body after loading: a truthy label list renders the input
form (no message), anything else renders the blocking error. -/
def renderAfterLoad (r : Option (List Label)) : List Msg :=
  if pyTruthy r then [] else [Msg.error blockedMsg]

/-! ## The model lister -/

/-- Python `value["key"]` subscripting on a JSON value: a dict lookup
(`KeyError` when absent), a `TypeError` on anything that is not a dict. -/
def jsonGetKey (j : Json) (key : String) : Except Exc Json :=
  match j with
  | .obj kvs =>
    match kvs.lookup key with
    | some v => Except.ok v
    | none => Except.error (Exc.keyError key)
  | _ => Except.error (Exc.typeError "value is not subscriptable by string")

/-- Semantics of the comprehension `[m["name"] for m in models]` over a
list: left to right, stopping at the first exception. -/
def getNames : List Json → Except Exc (List Json)
  | [] => Except.ok []
  | m :: ms =>
    match jsonGetKey m "name" with
    | Except.error e => Except.error e
    | Except.ok n =>
      match getNames ms with
      | Except.error e => Except.error e
      | Except.ok ns => Except.ok (n :: ns)

/-- Iterating `[m["name"] for m in models]` over an arbitrary JSON value:
a JSON array iterates its elements; iterating a string yields its
characters and a dict its keys, so any non-empty one raises `TypeError`
at the first `m["name"]`; anything else is not iterable. -/
def extractNames : Json → Except Exc (List Json)
  | .arr xs => getNames xs
  | .str s =>
    if s.isEmpty then Except.ok []
    else Except.error (Exc.typeError "string indices must be integers")
  | .obj kvs =>
    if kvs.isEmpty then Except.ok []
    else Except.error (Exc.typeError "string indices must be integers")
  | _ => Except.error (Exc.typeError "object is not iterable")

/-- Message of the `HTTPError` that `raise_for_status` raises (its
reason and URL parts are abbreviated away). -/
def httpErrorMsg (status : ℕ) : String :=
  if status < 500 then toString status ++ " Client Error"
  else toString status ++ " Server Error"

/-- Message of the `JSONDecodeError` that `response.json()` raises on a
body that is not valid JSON. -/
def jsonDecodeErrMsg : String := "Expecting value: line 1 column 1 (char 0)"

/-- The body of `get_available_models` up to and excluding its `except`
clause, with the raised exception made explicit: `requests.get` may
itself fail; `raise_for_status` raises `HTTPError` for statuses in
[400, 600); `response.json()` raises `JSONDecodeError` (a
`RequestException` subclass in requests ≥ 2.27) on a non-JSON body;
then the comprehension and the prepending of "latest". -/
def get_available_models_run (o : HttpOutcome) : Except Exc (List Json) :=
  match o with
  | .netErr msg => Except.error (Exc.requestExc msg)
  | .resp status body =>
    if 400 ≤ status ∧ status < 600 then
      Except.error (Exc.requestExc (httpErrorMsg status))
    else
      match body with
      | none => Except.error (Exc.requestExc jsonDecodeErrMsg)
      | some models =>
        match extractNames models with
        | Except.error e => Except.error e
        | Except.ok names => Except.ok (Json.str "latest" :: names)

/-- Embedding of `get_available_models()`: the `except` clause catches only
`requests.exceptions.RequestException` (rendering an `st.error`, not
modelled in the return value) and falls back to `["latest"]`; any
other exception propagates out of the function. -/
def get_available_models (o : HttpOutcome) : Except Exc (List Json) :=
  match get_available_models_run o with
  | Except.ok v => Except.ok v
  | Except.error (Exc.requestExc _) => Except.ok [Json.str "latest"]
  | Except.error e => Except.error e

/-! ## The predict-button handler -/

/-- Rounding of `q * s` to the nearest integer, ties to even, computed on
the numerator and denominator (Python's `format(..., ".4f")` rounding
rule, applied here to the exact rational). -/
def roundHalfEvenScaled (q : ℚ) (s : ℕ) : ℤ :=
  let a := q.num * Int.ofNat s
  let b := Int.ofNat q.den
  let f := Int.ediv a b
  let r := a - f * b
  if 2 * r < b then f
  else if b < 2 * r then f + 1
  else if f % 2 = 0 then f else f + 1

def padLeftZeros (s : String) (w : ℕ) : String :=
  String.mk (List.replicate (w - s.length) '0') ++ s

/-- Python `f"{q:.4f}"` on the exact rational value: round to four
decimal places (ties to even) and print with exactly four fractional
digits. -/
def formatFixed4 (q : ℚ) : String :=
  let n := roundHalfEvenScaled q 10000
  let sgn := if n < 0 then "-" else ""
  let a := n.natAbs
  sgn ++ toString (a / 10000) ++ "." ++ padLeftZeros (toString (a % 10000)) 4

/-- Rendering of a JSON value inside a Python f-string (`str()`). A
string renders verbatim; the numeric rendering is abbreviated to the
rational's own notation (no claim exercises it). -/
def pyStr : Json → String
  | .str s => s
  | .num q => toString q
  | .bool b => if b then "True" else "False"
  | .null => "None"
  | .arr _ => "[...]"
  | .obj _ => "\x7b...\x7d"

/-- Python `f"{value:.4f}"` on the JSON value bound to `predicted_te`:
numbers (and bools, which Python formats as integers) format; a string
raises `ValueError`, anything else `TypeError`. -/
def formatTe : Json → Except Exc String
  | .num q => Except.ok (formatFixed4 q)
  | .bool b => Except.ok (formatFixed4 (if b then 1 else 0))
  | .str _ => Except.error (Exc.valueError "Unknown format code f for object of type str")
  | _ => Except.error (Exc.typeError "unsupported format string passed to the value")

def requestingMsg : String := "API 서버에 예측 요청 중..."

def teMsgPre : String := "예측된 전자 온도 (Te): "

def teMsgSuf : String := " (eV?)"

def usedModelPre : String := "사용된 모델: "

def apiFailPre : String := "API 호출 실패: "

def serverRespPre : String := "서버 응답: "

def noDetailDefault : String := "상세 정보 없음"

def unexpectedPre : String := "예측 처리 중 예상치 못한 오류 발생: "

/-- Python `str(e)` of an exception as interpolated into the error
messages (`str` of a `KeyError` is the quoted key). -/
def excText : Exc → String
  | .requestExc m => m
  | .keyError k => "\x27" ++ k ++ "\x27"
  | .typeError m => m
  | .valueError m => m

/-- The `try` body of the button handler: `st.info`, the POST,
`raise_for_status`, `response.json()`, then `st.success` with the
formatted `predicted_te` and `st.caption` with `model_used`, each step
able to raise. Returns the messages rendered before any exception,
and the exception if one was raised. -/
def predictBody (o : HttpOutcome) : List Msg × Option Exc :=
  match o with
  | .netErr msg => ([Msg.info requestingMsg], some (Exc.requestExc msg))
  | .resp status body =>
    if 400 ≤ status ∧ status < 600 then
      ([Msg.info requestingMsg], some (Exc.requestExc (httpErrorMsg status)))
    else
      match body with
      | none => ([Msg.info requestingMsg], some (Exc.requestExc jsonDecodeErrMsg))
      | some result =>
        match jsonGetKey result "predicted_te" with
        | Except.error e => ([Msg.info requestingMsg], some e)
        | Except.ok te =>
          match formatTe te with
          | Except.error e => ([Msg.info requestingMsg], some e)
          | Except.ok ts =>
            match jsonGetKey result "model_used" with
            | Except.error e =>
              ([Msg.info requestingMsg,
                Msg.success (teMsgPre ++ ts ++ teMsgSuf)], some e)
            | Except.ok mu =>
              ([Msg.info requestingMsg,
                Msg.success (teMsgPre ++ ts ++ teMsgSuf),
                Msg.caption (usedModelPre ++ pyStr mu)], none)

/-- The inner `try` of the first `except` clause: a best-effort read of
`response.json().get('detail', ...)`. When the POST call itself raised,
`response` was never bound and the read raises `NameError`; when the
body is not JSON, `response.json()` raises; when the JSON is not a
dict, `.get` raises `AttributeError` — in every such case the bare
`except: pass` swallows the exception and nothing is rendered. -/
def detailMsgs : HttpOutcome → List Msg
  | .netErr _ => []
  | .resp _ none => []
  | .resp _ (some (.obj kvs)) =>
    [Msg.error (serverRespPre ++
      pyStr ((kvs.lookup "detail").getD (Json.str noDetailDefault)))]
  | .resp _ (some _) => []

/-- The whole button handler: run the `try` body; on
`RequestException` render the primary failure message and attempt the
secondary detail read; on any other exception render the generic
unexpected-error message. -/
def predictHandler (o : HttpOutcome) : List Msg :=
  match predictBody o with
  | (msgs, none) => msgs
  | (msgs, some (Exc.requestExc m)) =>
    msgs ++ (Msg.error (apiFailPre ++ m) :: detailMsgs o)
  | (msgs, some e) => msgs ++ [Msg.error (unexpectedPre ++ excText e)]

/-- One request as `requests.post` receives it. -/
structure Request where
  url : String
  body : Json

def API_BASE_URL : String := "http://127.0.0.1:8000"

/-- The `predict_payload` dict built on click: exactly the two fields
`model_name` and `intensities`, in this order. -/
def predict_payload (model_name : String) (intensities : List ℚ) : Json :=
  Json.obj [("model_name", Json.str model_name),
            ("intensities", Json.arr (intensities.map Json.num))]

/-- One click of the predict button: build the payload from the current
form state, send the single POST to `API_BASE_URL ++ "/predict"`, and
render the outcome. -/
def predictClick (selected : String) (input_intensities : List ℚ)
    (o : HttpOutcome) : Request × List Msg :=
  (⟨API_BASE_URL ++ "/predict", predict_payload selected input_intensities⟩,
   predictHandler o)

/-- Every `st.number_input` starts at `value=0.0`, so the default form
state is eleven zeros. -/
def defaultIntensities : List ℚ := List.replicate 11 0

/-- Modelled from the spec's words, for comparison with the code's
`defaultLabels`: the placeholder list the specification asserts,
`["Wavelength 1", ..., "Wavelength 11"]`. -/
def claimedPlaceholders : List Label :=
  (List.range 11).map (fun i => Label.str ("Wavelength " ++ toString (i + 1)))

/-! ## Helper lemmas -/

theorem traverseFloat_length {ws : List Label} {qs : List ℚ}
    (h : traverseFloat ws = some qs) : qs.length = ws.length := by
  induction ws generalizing qs with
  | nil =>
    simp only [traverseFloat, Option.some.injEq] at h
    subst h
    rfl
  | cons l ls ih =>
    unfold traverseFloat at h
    cases hf : pyFloatOfLabel? l with
    | none => rw [hf] at h; exact absurd h (by simp)
    | some q =>
      rw [hf] at h
      cases hr : traverseFloat ls with
      | none => rw [hr] at h; exact absurd h (by simp)
      | some qs2 =>
        rw [hr] at h
        simp only [Option.some.injEq] at h
        subst h
        simp [ih hr]

theorem convertRow_length (ws : List Label) :
    (convertRow ws).length = ws.length := by
  unfold convertRow
  cases h : traverseFloat ws with
  | none => rfl
  | some qs => simp [traverseFloat_length h]

theorem parseAll_length {ts : List String} {qs : List ℚ}
    (h : parseAll? ts = some qs) : qs.length = ts.length := by
  induction ts generalizing qs with
  | nil =>
    simp only [parseAll?, Option.some.injEq] at h
    subst h
    rfl
  | cons t ts ih =>
    unfold parseAll? at h
    cases hf : pyFloat? t with
    | none => rw [hf] at h; exact absurd h (by simp)
    | some q =>
      rw [hf] at h
      cases hr : parseAll? ts with
      | none => rw [hr] at h; exact absurd h (by simp)
      | some qs2 =>
        rw [hr] at h
        simp only [Option.some.injEq] at h
        subst h
        simp [ih hr]

theorem traverseFloat_infer_of_parseAll {ts : List String} {qs : List ℚ}
    (h : parseAll? ts = some qs) :
    traverseFloat (ts.map inferLabel) = some qs := by
  induction ts generalizing qs with
  | nil =>
    simp only [parseAll?, Option.some.injEq] at h
    subst h
    rfl
  | cons t ts ih =>
    unfold parseAll? at h
    cases hf : pyFloat? t with
    | none => rw [hf] at h; exact absurd h (by simp)
    | some q =>
      rw [hf] at h
      cases hr : parseAll? ts with
      | none => rw [hr] at h; exact absurd h (by simp)
      | some qs2 =>
        rw [hr] at h
        simp only [Option.some.injEq] at h
        subst h
        have hil : inferLabel t = Label.num q := by simp [inferLabel, hf]
        simp [traverseFloat, hil, pyFloatOfLabel?, ih hr]

theorem traverseFloat_infer_none {ts : List String} {t : String}
    (ht : t ∈ ts) (hn : pyFloat? t = none) :
    traverseFloat (ts.map inferLabel) = none := by
  induction ts with
  | nil => cases ht
  | cons u ts ih =>
    rcases List.mem_cons.mp ht with heq | hmem
    · subst heq
      have hil : inferLabel t = Label.str t := by simp [inferLabel, hn]
      simp [traverseFloat, hil, pyFloatOfLabel?, hn]
    · cases hf : pyFloatOfLabel? (inferLabel u) with
      | none => simp [traverseFloat, hf]
      | some q => simp [traverseFloat, hf, ih hmem]

theorem getNames_named (names : List String) :
    getNames (names.map fun n => Json.obj [("name", Json.str n)]) =
      Except.ok (names.map Json.str) := by
  induction names with
  | nil => rfl
  | cons n ns ih => simp [getNames, jsonGetKey, List.lookup, ih]

example : pyFloat? "2.50" = some (Rat.divInt 5 2) := by decide
example : pyFloat? "abc" = none := by decide
example : pyFloat? "-1e-2" = some (Rat.divInt (-1) 100) := by decide
example : pyFloat? "1E5" = some (Rat.divInt 100000 1) := by decide
example : pyFloat? "+.5" = some (Rat.divInt 1 2) := by decide
example : pyFloat? "1." = some (Rat.divInt 1 1) := by decide
example : pyFloat? "" = none := by decide
example : pyFloat? "1.2.3" = none := by decide
example : tokenize " a  b\tc " = ["a", "b", "c"] := by decide

/-! ## Claim C1 -/

/-- C1 (amended): for a header row with 11 tokens after the first column,
the loader returns those 11 values: as floats when every token parses as
a float; when some token does not parse, the per-column pandas inference
is what is kept — numeric-looking tokens as floats and the rest as raw
strings (a mixed list, not 11 raw strings). -/
theorem header_row_values (filename : String) (ls toks : List String)
    (h1 : firstRow ls = some toks) (h2 : (toks.drop 1).length = 11) :
    (∀ qs : List ℚ, parseAll? (toks.drop 1) = some qs →
      load_wavelengths filename (FileContent.content ls) =
        (some (qs.map Label.num), []))
    ∧ (∀ t ∈ toks.drop 1, pyFloat? t = none →
      load_wavelengths filename (FileContent.content ls) =
        (some ((toks.drop 1).map inferLabel), [])) := by
  constructor
  · intro qs hqs
    have hcr : convertRow ((toks.drop 1).map inferLabel) = qs.map Label.num := by
      unfold convertRow
      rw [traverseFloat_infer_of_parseAll hqs]
    have hlen : (qs.map Label.num).length = 11 := by
      rw [List.length_map, parseAll_length hqs]
      exact h2
    simp only [load_wavelengths, h1]
    rw [hcr, if_pos hlen]
  · intro t ht hn
    have hcr : convertRow ((toks.drop 1).map inferLabel) =
        (toks.drop 1).map inferLabel := by
      unfold convertRow
      rw [traverseFloat_infer_none ht hn]
    have hlen : ((toks.drop 1).map inferLabel).length = 11 := by
      rw [List.length_map]
      exact h2
    simp only [load_wavelengths, h1]
    rw [hcr, if_pos hlen]

/-- C1 witness: a well-formed all-numeric header row comes back verbatim
as the 11 floats. -/
theorem header_row_values_witness :
    load_wavelengths "ML_data_for_learning_N1000.txt"
      (FileContent.content ["x 1 2 3 4 5 6 7 8 9 10 11"]) =
      (some [Label.num (Rat.divInt 1 1), Label.num (Rat.divInt 2 1),
        Label.num (Rat.divInt 3 1), Label.num (Rat.divInt 4 1),
        Label.num (Rat.divInt 5 1), Label.num (Rat.divInt 6 1),
        Label.num (Rat.divInt 7 1), Label.num (Rat.divInt 8 1),
        Label.num (Rat.divInt 9 1), Label.num (Rat.divInt 10 1),
        Label.num (Rat.divInt 11 1)], []) := by
  have h := header_row_values "ML_data_for_learning_N1000.txt"
    ["x 1 2 3 4 5 6 7 8 9 10 11"]
    ["x", "1", "2", "3", "4", "5", "6", "7", "8", "9", "10", "11"]
    (by decide) (by decide)
  exact h.1 [Rat.divInt 1 1, Rat.divInt 2 1, Rat.divInt 3 1, Rat.divInt 4 1,
    Rat.divInt 5 1, Rat.divInt 6 1, Rat.divInt 7 1, Rat.divInt 8 1,
    Rat.divInt 9 1, Rat.divInt 10 1, Rat.divInt 11 1] (by decide)

/-- C1 counterexample: with one unparseable token ("abc") the loader does
not keep all 11 tokens as raw strings — the numeric-looking ones come
back as floats ("2.50" becomes the float 5/2, no longer the raw string),
so the all-raw-string mode the claim asserts does not happen. -/
theorem header_row_values_cex :
    load_wavelengths "f.txt"
      (FileContent.content ["x 1 2 3 4 5 6 7 8 9 2.50 abc"]) =
      (some [Label.num (Rat.divInt 1 1), Label.num (Rat.divInt 2 1),
        Label.num (Rat.divInt 3 1), Label.num (Rat.divInt 4 1),
        Label.num (Rat.divInt 5 1), Label.num (Rat.divInt 6 1),
        Label.num (Rat.divInt 7 1), Label.num (Rat.divInt 8 1),
        Label.num (Rat.divInt 9 1), Label.num (Rat.divInt 5 2),
        Label.str "abc"], [])
    ∧ load_wavelengths "f.txt"
      (FileContent.content ["x 1 2 3 4 5 6 7 8 9 2.50 abc"]) ≠
      (some (["1", "2", "3", "4", "5", "6", "7", "8", "9", "2.50",
        "abc"].map Label.str), []) := by
  exact ⟨by decide, by decide⟩

/-! ## Claim C2 -/

/-- C2: for every 2xx response of the predict POST whose JSON body binds
`predicted_te` to a number and `model_used` to a string, the handler
renders the temperature formatted to four decimal places and the
`model_used` string as the used model. -/
theorem success_renders_te (s : ℕ) (kvs : List (String × Json)) (q : ℚ)
    (mu : String) (h1 : 200 ≤ s) (h2 : s < 300)
    (hte : kvs.lookup "predicted_te" = some (Json.num q))
    (hmu : kvs.lookup "model_used" = some (Json.str mu)) :
    predictHandler (HttpOutcome.resp s (some (Json.obj kvs))) =
      [Msg.info requestingMsg,
       Msg.success (teMsgPre ++ formatFixed4 q ++ teMsgSuf),
       Msg.caption (usedModelPre ++ mu)] := by
  have hcond : ¬(400 ≤ s ∧ s < 600) := by omega
  simp only [predictHandler, predictBody, jsonGetKey, hte, hmu, formatTe,
    pyStr, if_neg hcond]

/-- C2 witness: a response carrying `predicted_te = 3.52839` renders the
temperature as "3.5284" and shows the model string. -/
theorem success_renders_te_witness :
    predictHandler (HttpOutcome.resp 200 (some (Json.obj
      [("predicted_te", Json.num (Rat.divInt 352839 100000)),
       ("model_used", Json.str "a.model")]))) =
      [Msg.info requestingMsg,
       Msg.success (teMsgPre ++ "3.5284" ++ teMsgSuf),
       Msg.caption (usedModelPre ++ "a.model")] := by
  have h := success_renders_te 200
    [("predicted_te", Json.num (Rat.divInt 352839 100000)),
     ("model_used", Json.str "a.model")]
    (Rat.divInt 352839 100000) "a.model"
    (by decide) (by decide) rfl rfl
  rw [h]
  decide

/-! ## Claim C3 -/

/-- C3 counterexample: a 2xx response whose JSON body is a list with one
object lacking a "name" field makes `get_available_models` raise an
uncaught `KeyError` past its boundary (the `except` clause catches only
`RequestException`), instead of returning a list. -/
theorem models_never_raises_cex :
    get_available_models (HttpOutcome.resp 200
      (some (Json.arr [Json.obj []]))) =
      Except.error (Exc.keyError "name") := by
  rfl

/-- C3 (amended): the lister returns exactly `["latest"]` for every
network failure, every response with status in [400, 600) and every
non-JSON body, and returns the name list (with "latest" prepended) for
a well-formed body; but a 2xx JSON body that is not an array of objects
each carrying "name" can escape as an uncaught exception. -/
theorem models_fallback (msg : String) (s1 s2 s3 : ℕ) (body : Option Json)
    (names : List String) (hf : 400 ≤ s1) (hf2 : s1 < 600)
    (hs2 : s2 < 400) (hs3 : s3 < 400) :
    get_available_models (HttpOutcome.netErr msg) =
      Except.ok [Json.str "latest"]
    ∧ get_available_models (HttpOutcome.resp s1 body) =
      Except.ok [Json.str "latest"]
    ∧ get_available_models (HttpOutcome.resp s2 none) =
      Except.ok [Json.str "latest"]
    ∧ get_available_models (HttpOutcome.resp s3 (some (Json.arr
        (names.map fun n => Json.obj [("name", Json.str n)])))) =
      Except.ok (Json.str "latest" :: names.map Json.str) := by
  have hc1 : 400 ≤ s1 ∧ s1 < 600 := ⟨hf, hf2⟩
  have hc2 : ¬(400 ≤ s2 ∧ s2 < 600) := by omega
  have hc3 : ¬(400 ≤ s3 ∧ s3 < 600) := by omega
  refine ⟨rfl, ?_, ?_, ?_⟩
  · simp only [get_available_models, get_available_models_run, if_pos hc1]
  · simp only [get_available_models, get_available_models_run, if_neg hc2]
  · simp only [get_available_models, get_available_models_run, if_neg hc3,
      extractNames, getNames_named]

/-- C3 witness: the fallback and success paths at concrete inputs. -/
theorem models_fallback_witness :
    get_available_models (HttpOutcome.netErr "connection refused") =
      Except.ok [Json.str "latest"]
    ∧ get_available_models (HttpOutcome.resp 503 none) =
      Except.ok [Json.str "latest"]
    ∧ get_available_models (HttpOutcome.resp 200 none) =
      Except.ok [Json.str "latest"]
    ∧ get_available_models (HttpOutcome.resp 200 (some (Json.arr
        (["m1.joblib"].map fun n => Json.obj [("name", Json.str n)])))) =
      Except.ok (Json.str "latest" :: ["m1.joblib"].map Json.str) :=
  models_fallback "connection refused" 503 200 200 none ["m1.joblib"]
    (by decide) (by decide) (by decide) (by decide)

/-! ## Claim C4 -/

/-- C4 counterexample: the placeholder labels the code actually returns
for a missing file are the Korean strings "파장 1" … "파장 11" ("파장"
means wavelength), not the English list `["Wavelength 1", ...,
"Wavelength 11"]` the claim spells out. -/
theorem absent_placeholders_cex :
    (load_wavelengths "f.txt" FileContent.absent).1 = some defaultLabels
    ∧ defaultLabels ≠ claimedPlaceholders := by
  exact ⟨by decide, by decide⟩

/-- C4 (amended): a missing file, and any other I/O or parse exception,
makes the loader return the generic placeholder list "파장 1" … "파장 11"
(the code's Korean rendering of "Wavelength 1" … "Wavelength 11")
together with a warning — not an error — and the form still renders. -/
theorem absent_degrades_to_placeholders (filename m : String) :
    load_wavelengths filename FileContent.absent =
      (some defaultLabels, [Msg.warning (notFoundWarn filename)])
    ∧ load_wavelengths filename (FileContent.ioError m) =
      (some defaultLabels, [Msg.warning (loadErrWarn m)])
    ∧ defaultLabels.length = 11
    ∧ pyTruthy (some defaultLabels) = true
    ∧ renderAfterLoad (some defaultLabels) = [] :=
  ⟨rfl, rfl, by decide, by decide, by decide⟩

/-! ## Claim C5 -/

/-- C5: a readable header row whose token count after the first column is
not 11 makes the loader render the validation error and return `None`;
the caller's truthiness test then fails, the blocking error is rendered
and the form is not shown — unlike the missing-file outcome, which
yields placeholder labels with a warning and a rendered form. -/
theorem wrong_count_blocks (filename : String) (ls toks : List String)
    (h1 : firstRow ls = some toks) (h2 : (toks.drop 1).length ≠ 11) :
    load_wavelengths filename (FileContent.content ls) =
      (none, [Msg.error lenErrMsg])
    ∧ pyTruthy none = false
    ∧ renderAfterLoad none = [Msg.error blockedMsg]
    ∧ load_wavelengths filename FileContent.absent =
      (some defaultLabels, [Msg.warning (notFoundWarn filename)])
    ∧ pyTruthy (some defaultLabels) = true
    ∧ Msg.error lenErrMsg ≠ Msg.warning (notFoundWarn filename) := by
  have hlen : ¬((convertRow ((toks.drop 1).map inferLabel)).length = 11) := by
    rw [convertRow_length, List.length_map]
    exact h2
  refine ⟨?_, rfl, rfl, rfl, by decide, by simp⟩
  simp only [load_wavelengths, h1]
  rw [if_neg hlen]

/-- C5 witness: a 10-token header row is rejected with the validation
error while the missing file path degrades gracefully. -/
theorem wrong_count_blocks_witness :
    load_wavelengths "ML_data_for_learning_N1000.txt"
      (FileContent.content ["h 1 2 3 4 5 6 7 8 9 10"]) =
      (none, [Msg.error lenErrMsg])
    ∧ pyTruthy none = false
    ∧ renderAfterLoad none = [Msg.error blockedMsg]
    ∧ load_wavelengths "ML_data_for_learning_N1000.txt" FileContent.absent =
      (some defaultLabels,
       [Msg.warning (notFoundWarn "ML_data_for_learning_N1000.txt")])
    ∧ pyTruthy (some defaultLabels) = true
    ∧ Msg.error lenErrMsg ≠
      Msg.warning (notFoundWarn "ML_data_for_learning_N1000.txt") :=
  wrong_count_blocks "ML_data_for_learning_N1000.txt"
    ["h 1 2 3 4 5 6 7 8 9 10"]
    ["h", "1", "2", "3", "4", "5", "6", "7", "8", "9", "10"]
    (by decide) (by decide)

/-! ## Claim C6 -/

/-- C6 counterexample: a header row with a token count other than 11 does
not force the fallback placeholder labels — the loader renders the
validation error and returns `None`, which is not the placeholder
list. -/
theorem mismatch_forces_placeholders_cex :
    load_wavelengths "g.txt" (FileContent.content ["h 1 2"]) =
      (none, [Msg.error lenErrMsg])
    ∧ (none : Option (List Label)) ≠ some defaultLabels := by
  exact ⟨by decide, by decide⟩

/-- C6 (amended): a loaded label sequence whose length is not 11 is
treated as an error, but it yields no labels at all (`None`, blocking
the form) rather than the fallback placeholders; the placeholders are
forced only by the exception paths of the loader. -/
theorem mismatch_yields_none (filename : String) (ls toks : List String)
    (h1 : firstRow ls = some toks) (h2 : (toks.drop 1).length ≠ 11) :
    (load_wavelengths filename (FileContent.content ls)).1 = none
    ∧ (load_wavelengths filename (FileContent.content ls)).1 ≠
      some defaultLabels
    ∧ (load_wavelengths filename (FileContent.content ls)).2 =
      [Msg.error lenErrMsg] := by
  have hlen : ¬((convertRow ((toks.drop 1).map inferLabel)).length = 11) := by
    rw [convertRow_length, List.length_map]
    exact h2
  have hload : load_wavelengths filename (FileContent.content ls) =
      (none, [Msg.error lenErrMsg]) := by
    simp only [load_wavelengths, h1]
    rw [if_neg hlen]
  rw [hload]
  exact ⟨rfl, by simp, rfl⟩

/-- C6 witness: a 12-token header row yields `None`, not the
placeholders. -/
theorem mismatch_yields_none_witness :
    (load_wavelengths "h.txt"
      (FileContent.content ["h 1 2 3 4 5 6 7 8 9 10 11 12"])).1 = none
    ∧ (load_wavelengths "h.txt"
      (FileContent.content ["h 1 2 3 4 5 6 7 8 9 10 11 12"])).1 ≠
      some defaultLabels
    ∧ (load_wavelengths "h.txt"
      (FileContent.content ["h 1 2 3 4 5 6 7 8 9 10 11 12"])).2 =
      [Msg.error lenErrMsg] :=
  mismatch_yields_none "h.txt" ["h 1 2 3 4 5 6 7 8 9 10 11 12"]
    ["h", "1", "2", "3", "4", "5", "6", "7", "8", "9", "10", "11", "12"]
    (by decide) (by decide)

/-! ## Claim C7 -/

/-- C7: a successful GET to /models returning a JSON array of objects
each with a "name" field yields the list of those names with the
sentinel "latest" prepended unconditionally as the first element. -/
theorem models_success_latest (s : ℕ) (names : List String)
    (h1 : 200 ≤ s) (h2 : s < 300) :
    get_available_models (HttpOutcome.resp s (some (Json.arr
      (names.map fun n => Json.obj [("name", Json.str n)])))) =
      Except.ok (Json.str "latest" :: names.map Json.str) := by
  have hcond : ¬(400 ≤ s ∧ s < 600) := by omega
  simp only [get_available_models, get_available_models_run, if_neg hcond,
    extractNames, getNames_named]

/-- C7 witness: `[{"name":"a.model"},{"name":"b.model"}]` yields
`["latest", "a.model", "b.model"]`. -/
theorem models_success_latest_witness :
    get_available_models (HttpOutcome.resp 200 (some (Json.arr
      [Json.obj [("name", Json.str "a.model")],
       Json.obj [("name", Json.str "b.model")]]))) =
      Except.ok [Json.str "latest", Json.str "a.model",
        Json.str "b.model"] :=
  models_success_latest 200 ["a.model", "b.model"] (by decide) (by decide)

/-! ## Claim C8 -/

/-- C8: on every HTTP failure of the predict POST the handler renders the
primary failure message carrying the underlying error text, then — best
effort — the `detail` field of the last response body; when the
secondary read fails (no response bound, or a non-JSON body) it is
silently skipped and the primary message alone stands. -/
theorem predict_failure_detail (s : ℕ) (kvs : List (String × Json))
    (d msg : String) (h1 : 400 ≤ s) (h2 : s < 600)
    (hd : kvs.lookup "detail" = some (Json.str d)) :
    predictHandler (HttpOutcome.resp s (some (Json.obj kvs))) =
      [Msg.info requestingMsg,
       Msg.error (apiFailPre ++ httpErrorMsg s),
       Msg.error (serverRespPre ++ d)]
    ∧ predictHandler (HttpOutcome.netErr msg) =
      [Msg.info requestingMsg, Msg.error (apiFailPre ++ msg)]
    ∧ predictHandler (HttpOutcome.resp s none) =
      [Msg.info requestingMsg,
       Msg.error (apiFailPre ++ httpErrorMsg s)] := by
  have hcond : 400 ≤ s ∧ s < 600 := ⟨h1, h2⟩
  refine ⟨?_, rfl, ?_⟩
  · simp only [predictHandler, predictBody, if_pos hcond, detailMsgs, hd,
      Option.getD, pyStr, List.cons_append, List.nil_append]
  · simp only [predictHandler, predictBody, if_pos hcond, detailMsgs,
      List.cons_append, List.nil_append]

/-- C8 witness: HTTP 400 with body `{"detail": "bad input"}` shows the
generic failure plus "bad input"; a connection error shows only the
primary message. -/
theorem predict_failure_detail_witness :
    predictHandler (HttpOutcome.resp 400 (some (Json.obj
      [("detail", Json.str "bad input")]))) =
      [Msg.info requestingMsg,
       Msg.error (apiFailPre ++ httpErrorMsg 400),
       Msg.error (serverRespPre ++ "bad input")]
    ∧ predictHandler (HttpOutcome.netErr "Connection refused") =
      [Msg.info requestingMsg,
       Msg.error (apiFailPre ++ "Connection refused")]
    ∧ predictHandler (HttpOutcome.resp 400 none) =
      [Msg.info requestingMsg,
       Msg.error (apiFailPre ++ httpErrorMsg 400)] :=
  predict_failure_detail 400 [("detail", Json.str "bad input")]
    "bad input" "Connection refused" (by decide) (by decide) rfl

/-! ## Claim C9 -/

/-- C9: every click builds a JSON body with exactly the two fields
`model_name` (the selected model) and `intensities` (the 11 current
values, in order) and sends it in the single POST of the click to
`API_BASE_URL ++ "/predict"`; the all-zero default form state is sent
as-is, with no client-side non-zero requirement. -/
theorem click_builds_single_request (s : String) (ints : List ℚ)
    (o : HttpOutcome) :
    (predictClick s ints o).1 =
      ⟨API_BASE_URL ++ "/predict",
       Json.obj [("model_name", Json.str s),
                 ("intensities", Json.arr (ints.map Json.num))]⟩
    ∧ (predictClick s defaultIntensities o).1.body =
      Json.obj [("model_name", Json.str s),
                ("intensities", Json.arr (List.replicate 11 (Json.num 0)))] :=
  ⟨rfl, rfl⟩

/-! ## Claim C10 -/

/-- C10: when the POST call itself fails before a response is bound, the
handler still terminates with only the primary failure message: the
secondary detail read, which would reference the unbound `response`
variable, raises `NameError` inside the bare `except` and is
swallowed. -/
theorem unbound_response_safe (msg : String) :
    predictHandler (HttpOutcome.netErr msg) =
      [Msg.info requestingMsg, Msg.error (apiFailPre ++ msg)]
    ∧ detailMsgs (HttpOutcome.netErr msg) = [] :=
  ⟨rfl, rfl⟩
